import Mathlib

/-!
Shallow embedding of `src/network_test_framework.py` (class
`NetworkDeviceTestFramework`) and verification of its specification claims.

Modelling conventions:
* Python floats are embedded as rationals (`ℚ`); the simulated ping time and
  port probe (`simulate_ping` / `simulate_port_check`, which are random in the
  source) become explicit parameters of the connectivity check and of
  `run_test_suite`, universally quantified in the theorems.
* Python strings are `String`; `str.lower()` is `lowerStr` and the Python
  substring test `sub in s` is `containsStr s sub`.
* Python's `f"{n}"` rendering of an integer is `natStr`; the rendering of a
  float inside an issue message is abstracted by `ratStr` (an injective
  rendering of the rational using only digits, `-` and `/`, which is all the
  severity heuristics can observe).  The `%.1f` formatting used for the pass
  rate is `fmt1` (one decimal digit, rounding to nearest).
* The mutable framework object becomes an explicit `Framework` state threaded
  through every operation; `datetime.now()` becomes an explicit `now : String`
  argument.  Wall-clock durations and `time.sleep` are not modelled.
* No adapter call in the source can raise an exception (the adapter is the
  in-process simulator), so the `except`/ERROR branches of the checks are dead
  code and the embedded checks never produce an `"ERROR"` status.
-/

namespace NetTest

/-- Helper for the embedding of Python's substring test: `isPrefixChars n l`
is true when `n` is a prefix of `l`. -/
def isPrefixChars : List Char → List Char → Bool
  | [], _ => true
  | _ :: _, [] => false
  | a :: as, b :: bs => a == b && isPrefixChars as bs

/-- Helper: `strContainsAux n l` is true when `n` occurs contiguously in `l`. -/
def strContainsAux (needle : List Char) : List Char → Bool
  | [] => needle.isEmpty
  | c :: t => isPrefixChars needle (c :: t) || strContainsAux needle t

/-- Embedding of the Python substring test `sub in s`. -/
def containsStr (s sub : String) : Bool :=
  strContainsAux sub.data s.data

/-- Embedding of Python `str.lower()` (the source only ever feeds it ASCII). -/
def lowerStr (s : String) : String :=
  String.mk (s.data.map Char.toLower)

/-- Decimal digits of `n`, most significant first; `fuel` bounds the
recursion (`fuel > n` is always sufficient). -/
def natCharsAux : Nat → Nat → List Char
  | 0, _ => []
  | fuel + 1, n =>
    if n < 10 then [Nat.digitChar n]
    else natCharsAux fuel (n / 10) ++ [Nat.digitChar (n % 10)]

/-- Embedding of Python's `str(n)` / `f"{n}"` for a nonnegative integer. -/
def natStr (n : Nat) : String :=
  String.mk (natCharsAux (n + 1) n)

/-- Abstract rendering of a float value inside an issue message.  Uses only
digits, `-` and `/`, which is all the severity heuristics of
`determine_severity` can observe about an interpolated number. -/
def ratStr (q : ℚ) : String :=
  (if q < 0 then "-" else "") ++ natStr q.num.natAbs ++
    (if q.den = 1 then "" else "/" ++ natStr q.den)

/-- Embedding of Python's `f"{n:04d}"` (for the nonnegative arguments used by
`create_defect`): zero-pad the decimal digits of `n` to width 4. -/
def pad4 (n : Nat) : String :=
  String.mk (List.replicate (4 - (natCharsAux (n + 1) n).length) '0' ++
    natCharsAux (n + 1) n)

/-- Decimal value of a digit string (proof tool: left inverse of
`natCharsAux`, also through `pad4`'s zero padding). -/
def charsVal (l : List Char) : Nat :=
  l.foldl (fun a c => a * 10 + (c.toNat - 48)) 0

/-- Per-device configuration, as in the `device_configs` dictionaries. -/
structure DeviceConfig where
  ip : String
  type : String
  management_port : Nat
  expected_interfaces : Nat
  protocols : List String
deriving DecidableEq

/-- One entry of the list returned by the `/interfaces` endpoint. -/
structure NetInterface where
  name : String
  status : String
  speed : String
  duplex : String
deriving DecidableEq

/-- One entry of the list returned by the `/alarms` endpoint. -/
structure Alarm where
  severity : String
  message : String
  timestamp : String
deriving DecidableEq

/-- Payload of the `/system/status` endpoint. -/
structure SystemStatus where
  status : String
  uptime : String
  cpu_usage : ℚ
  memory_usage : ℚ
  temperature : ℚ
  interfaces_up : Nat
deriving DecidableEq

/-- The dictionaries returned by `simulate_rest_call`, as a tagged sum; the
`error` variant models a dictionary containing the `'error'` key. -/
inductive RestResponse where
  | error (msg : String)
  | systemStatus (d : SystemStatus)
  | interfaces (interfaces : List NetInterface)
  | alarms (active_alarms : List Alarm)
  | message (msg : String)
deriving DecidableEq

/-- The check-specific fields of a result dictionary. -/
inductive ResultData where
  | noData
  | connectivity (response_time_ms : ℚ) (port_accessible : Bool)
  | system (d : RestResponse)
  | interfaceData (d : RestResponse)
  | alarmData (active_alarms : List Alarm) (alarm_count : Nat)
deriving DecidableEq

/-- One entry of `self.test_results`.  `device` is `none` for the
device-not-found connectivity result, whose dictionary omits the key. -/
structure TestResult where
  test_name : String
  device : Option String
  status : String
  error : Option String
  issues : List String
  data : ResultData
  timestamp : String
deriving DecidableEq

/-- One entry of `self.defects`. -/
structure Defect where
  defect_id : String
  device : String
  category : String
  description : String
  severity : String
  status : String
  created_date : String
  assigned_to : String
deriving DecidableEq

/-- The mutable state of one `NetworkDeviceTestFramework` instance. -/
structure Framework where
  test_results : List TestResult
  defects : List Defect
  device_configs : List (String × DeviceConfig)
deriving DecidableEq

/-- The `default_devices` dictionary from `__init__`. -/
def default_devices : List (String × DeviceConfig) :=
  [("optical_device_1",
      { ip := "192.168.1.100", type := "optical_transponder",
        management_port := 8080, expected_interfaces := 4,
        protocols := ["REST", "SNMP", "CLI"] }),
   ("microwave_device_1",
      { ip := "192.168.1.101", type := "microwave_radio",
        management_port := 443, expected_interfaces := 2,
        protocols := ["REST", "NETCONF"] })]

/-- A freshly constructed framework (no config file): empty results and
defects, default device registry. -/
def initFramework : Framework :=
  { test_results := [], defects := [], device_configs := default_devices }

/-- Embedding of `self.device_configs.get(device_name)`. -/
def lookupDevice (fw : Framework) (device_name : String) : Option DeviceConfig :=
  fw.device_configs.lookup device_name

/-- Embedding of `determine_severity` (lines 355-364). -/
def determine_severity (category description : String) : String :=
  if containsStr (lowerStr category) "connectivity" ||
      containsStr (lowerStr description) "unreachable" then "CRITICAL"
  else if containsStr (lowerStr category) "interface" &&
      containsStr (lowerStr description) "down" then "MAJOR"
  else if containsStr (lowerStr description) "high" &&
      (containsStr (lowerStr description) "cpu" ||
        containsStr (lowerStr description) "memory") then "MINOR"
  else "MINOR"

/-- Embedding of `create_defect` (lines 337-353): returns the updated state
and the created defect. -/
def create_defect (fw : Framework) (device_name category description now : String) :
    Framework × Defect :=
  let defect : Defect :=
    { defect_id := "DEF-" ++ pad4 (fw.defects.length + 1),
      device := device_name,
      category := category,
      description := description,
      severity := determine_severity category description,
      status := "OPEN",
      created_date := now,
      assigned_to := "verification_team" }
  ({ fw with defects := fw.defects ++ [defect] }, defect)

/-- Embedding of `simulate_rest_call` (lines 66-99). -/
def simulate_rest_call (fw : Framework) (device_name endpoint : String) : RestResponse :=
  match lookupDevice fw device_name with
  | none => .error "Device not found"
  | some device =>
    if endpoint = "/system/status" then
      .systemStatus
        { status := "operational", uptime := "72:15:30",
          cpu_usage := 15.2, memory_usage := 45.8, temperature := 35.2,
          interfaces_up := device.expected_interfaces }
    else if endpoint = "/interfaces" then
      .interfaces ((List.range device.expected_interfaces).map fun i =>
        { name := "eth" ++ natStr i,
          status := if i < device.expected_interfaces - 1 then "up" else "down",
          speed := "10Gbps", duplex := "full" })
    else if endpoint = "/alarms" then
      .alarms (if 3 < device.expected_interfaces then
        [{ severity := "minor", message := "Interface eth3 down",
           timestamp := "2025-09-26T10:30:00Z" }] else [])
    else .message "Endpoint simulated successfully"

/-- Embedding of `status_data.get('cpu_usage', 0)`. -/
def getCpu : RestResponse → ℚ
  | .systemStatus d => d.cpu_usage
  | _ => 0

/-- Embedding of `status_data.get('memory_usage', 0)`. -/
def getMemory : RestResponse → ℚ
  | .systemStatus d => d.memory_usage
  | _ => 0

/-- Embedding of `status_data.get('temperature', 0)`. -/
def getTemperature : RestResponse → ℚ
  | .systemStatus d => d.temperature
  | _ => 0

/-- Embedding of `interface_data.get('interfaces', [])`. -/
def getInterfaces : RestResponse → List NetInterface
  | .interfaces l => l
  | _ => []

/-- Embedding of `alarm_data.get('active_alarms', [])`. -/
def getAlarms : RestResponse → List Alarm
  | .alarms l => l
  | _ => []

/-- Embedding of `test_device_connectivity` (lines 101-157).  `response_time`
and `port_open` stand for the values of `simulate_ping` and
`simulate_port_check` (random in the source). -/
def test_device_connectivity (fw : Framework) (device_name : String)
    (response_time : ℚ) (port_open : Bool) (now : String) :
    Framework × TestResult :=
  match lookupDevice fw device_name with
  | none =>
    let result : TestResult :=
      { test_name := "connectivity_test_" ++ device_name, device := none,
        status := "FAILED", error := some "Device configuration not found",
        issues := [], data := .noData, timestamp := now }
    ({ fw with test_results := fw.test_results ++ [result] }, result)
  | some _device =>
    if 0 < response_time ∧ port_open = true then
      let result : TestResult :=
        { test_name := "connectivity_test_" ++ device_name,
          device := some device_name, status := "PASSED", error := none,
          issues := [], data := .connectivity response_time port_open,
          timestamp := now }
      ({ fw with test_results := fw.test_results ++ [result] }, result)
    else
      let fw1 :=
        (create_defect fw device_name "connectivity"
          "Connectivity failed - device unreachable" now).1
      let result : TestResult :=
        { test_name := "connectivity_test_" ++ device_name,
          device := some device_name, status := "FAILED",
          error := some "Connectivity failed - device unreachable",
          issues := [], data := .connectivity response_time port_open,
          timestamp := now }
      ({ fw1 with test_results := fw1.test_results ++ [result] }, result)

/-- The issue list computed by `test_device_status` (lines 179-196) from the
status payload. -/
def statusIssues (status_data : RestResponse) : List String :=
  match status_data with
  | .error e => [e]
  | d =>
    (if 80 < getCpu d then
      ["High CPU usage: " ++ ratStr (getCpu d) ++ "%"] else []) ++
    (if 90 < getMemory d then
      ["High memory usage: " ++ ratStr (getMemory d) ++ "%"] else []) ++
    (if 60 < getTemperature d then
      ["High temperature: " ++ ratStr (getTemperature d) ++ "Â°C"] else [])

/-- Embedding of `test_device_status` (lines 159-225), with the adapter's
response passed explicitly (the CheckEngine view of the check). -/
def test_device_status_with (fw : Framework) (device_name now : String)
    (status_data : RestResponse) : Framework × TestResult :=
  let issues := statusIssues status_data
  let test_passed := issues.isEmpty
  let result : TestResult :=
    { test_name := "status_test_" ++ device_name, device := some device_name,
      status := if test_passed then "PASSED" else "FAILED", error := none,
      issues := issues, data := .system status_data, timestamp := now }
  let fw1 :=
    if test_passed then fw
    else issues.foldl
      (fun f issue => (create_defect f device_name "performance" issue now).1) fw
  ({ fw1 with test_results := fw1.test_results ++ [result] }, result)

/-- The full `test_device_status` as called by the orchestrator: the payload comes from
`simulate_rest_call(device_name, '/system/status')`. -/
def test_device_status (fw : Framework) (device_name now : String) :
    Framework × TestResult :=
  test_device_status_with fw device_name now
    (simulate_rest_call fw device_name "/system/status")

/-- The issue list computed by `test_interface_status` (lines 241-257) from the
interface payload and the expected interface count. -/
def interfaceIssues (expected : Nat) (interface_data : RestResponse) : List String :=
  match interface_data with
  | .error e => [e]
  | d =>
    (if (getInterfaces d).length ≠ expected then
      ["Expected " ++ natStr expected ++ " interfaces, found " ++
        natStr (getInterfaces d).length] else []) ++
    ((getInterfaces d).filter (fun i => i.status != "up")).map
      (fun i => "Interface " ++ i.name ++ " is " ++ i.status)

/-- Embedding of `test_interface_status` (lines 227-285), with the adapter's
response passed explicitly.  `expected` comes from
`device_configs.get(device_name, {}).get('expected_interfaces', 0)`. -/
def test_interface_status_with (fw : Framework) (device_name now : String)
    (interface_data : RestResponse) : Framework × TestResult :=
  let expected := ((lookupDevice fw device_name).map
    (fun c => c.expected_interfaces)).getD 0
  let issues := interfaceIssues expected interface_data
  let test_passed := issues.isEmpty
  let result : TestResult :=
    { test_name := "interface_test_" ++ device_name, device := some device_name,
      status := if test_passed then "PASSED" else "FAILED", error := none,
      issues := issues, data := .interfaceData interface_data, timestamp := now }
  let fw1 :=
    if test_passed then fw
    else issues.foldl
      (fun f issue => (create_defect f device_name "interface" issue now).1) fw
  ({ fw1 with test_results := fw1.test_results ++ [result] }, result)

/-- The full `test_interface_status` as called by the orchestrator. -/
def test_interface_status (fw : Framework) (device_name now : String) :
    Framework × TestResult :=
  test_interface_status_with fw device_name now
    (simulate_rest_call fw device_name "/interfaces")

/-- Embedding of `test_alarm_monitoring` (lines 287-323): always PASSED,
records the active alarms, never creates a defect. -/
def test_alarm_monitoring (fw : Framework) (device_name now : String) :
    Framework × TestResult :=
  let alarm_data := simulate_rest_call fw device_name "/alarms"
  let result : TestResult :=
    { test_name := "alarm_test_" ++ device_name, device := some device_name,
      status := "PASSED", error := none, issues := [],
      data := .alarmData (getAlarms alarm_data) (getAlarms alarm_data).length,
      timestamp := now }
  ({ fw with test_results := fw.test_results ++ [result] }, result)

/-- Embedding of `run_test_suite` (lines 366-382).  `device_names = none`
models the Python default of all registered devices; `ping` and `port` supply
the simulated connectivity measurements per device. -/
def run_test_suite (fw : Framework) (device_names : Option (List String))
    (ping : String → ℚ) (port : String → Bool) (now : String) : Framework :=
  let names := device_names.getD (fw.device_configs.map (fun p => p.1))
  names.foldl
    (fun f device_name =>
      let f1 := (test_device_connectivity f device_name (ping device_name)
        (port device_name) now).1
      let f2 := (test_device_status f1 device_name now).1
      let f3 := (test_interface_status f2 device_name now).1
      (test_alarm_monitoring f3 device_name now).1)
    fw

/-- One-decimal fixed-point rendering, embedding the `f"{x:.1f}"` formatting
of the pass rate (rounding to nearest; Python rounds the underlying binary
double to nearest, which agrees on the values at issue here). -/
def fmt1 (q : ℚ) : String :=
  (if ⌊q * 10 + 1 / 2⌋ < 0 then "-" else "") ++
    natStr (⌊q * 10 + 1 / 2⌋.natAbs / 10) ++ "." ++
    natStr (⌊q * 10 + 1 / 2⌋.natAbs % 10)

/-- The `test_summary` part of the report. -/
structure TestSummary where
  total_tests : Nat
  passed : Nat
  failed : Nat
  errors : Nat
  pass_rate : String
deriving DecidableEq

/-- The report structure returned by `generate_test_report`. -/
structure Report where
  test_summary : TestSummary
  test_results : List TestResult
  defects_found : Nat
  defect_details : List Defect
  report_generated : String
deriving DecidableEq

/-- Embedding of `generate_test_report` (lines 384-405): a pure read of the
result/defect state (the method mutates nothing). -/
def generate_test_report (fw : Framework) (now : String) : Report :=
  let total_tests := fw.test_results.length
  let passed := (fw.test_results.filter (fun t => t.status == "PASSED")).length
  let failed := (fw.test_results.filter (fun t => t.status == "FAILED")).length
  let errors := (fw.test_results.filter (fun t => t.status == "ERROR")).length
  { test_summary :=
      { total_tests := total_tests, passed := passed, failed := failed,
        errors := errors,
        pass_rate :=
          if 0 < total_tests then
            fmt1 ((passed : ℚ) / (total_tests : ℚ) * 100) ++ "%"
          else "0%" },
    test_results := fw.test_results,
    defects_found := fw.defects.length,
    defect_details := fw.defects,
    report_generated := now }

/-- The severity rule exactly as the specification words it (three rules,
first match wins); used to state the refinement claim about
`determine_severity`. -/
def severitySpecRule (category description : String) : String :=
  if containsStr (lowerStr category) "connectivity" ||
      containsStr (lowerStr description) "unreachable" then "CRITICAL"
  else if containsStr (lowerStr category) "interface" &&
      containsStr (lowerStr description) "down" then "MAJOR"
  else "MINOR"

/-- A sequence of `create_defect` calls (device, category, description, now)
against a framework state, for reasoning about identifier assignment. -/
def runCreates (fw : Framework)
    (reqs : List (String × String × String × String)) : Framework :=
  reqs.foldl (fun f r => (create_defect f r.1 r.2.1 r.2.2.1 r.2.2.2).1) fw

/-- The projection of a defect that the functional claims constrain
(everything except the sequential identifier and timestamps). -/
def dproj (d : Defect) : String × String × String × String :=
  (d.device, d.category, d.description, d.severity)

/-- The registry entry of `optical_device_1` (used to instantiate theorems). -/
def opticalCfg : DeviceConfig :=
  { ip := "192.168.1.100", type := "optical_transponder",
    management_port := 8080, expected_interfaces := 4,
    protocols := ["REST", "SNMP", "CLI"] }

/-- A concrete result entry used to exercise the report aggregation. -/
def sampleResult (nm st : String) : TestResult :=
  { test_name := nm, device := some "d", status := st, error := none,
    issues := [], data := .noData, timestamp := "t" }

/-- A framework state with three recorded results of which two passed. -/
def fw3 : Framework :=
  { test_results := [sampleResult "a" "PASSED", sampleResult "b" "PASSED",
      sampleResult "c" "FAILED"],
    defects := [], device_configs := [] }

/-- A concrete sequence of defect-creation requests (device, category,
description, timestamp), used to exercise identifier assignment. -/
def c7reqs : List (String × String × String × String) :=
  [("optical_device_1", "connectivity", "Connectivity failed - device unreachable", "t"),
   ("microwave_device_1", "performance", "High CPU usage: 95%", "t")]

/-- The interface list the simulated adapter returns for a device with
`expected_interfaces = 4`: four interfaces, the last one down. -/
def ifaceList4 : List NetInterface :=
  [{ name := "eth0", status := "up", speed := "10Gbps", duplex := "full" },
   { name := "eth1", status := "up", speed := "10Gbps", duplex := "full" },
   { name := "eth2", status := "up", speed := "10Gbps", duplex := "full" },
   { name := "eth3", status := "down", speed := "10Gbps", duplex := "full" }]

/-! ### String-level helper lemmas -/

theorem string_data_append (s t : String) : (s ++ t).data = s.data ++ t.data := by
  cases s; cases t; rfl

theorem string_eq_of_data {s t : String} (h : s.data = t.data) : s = t :=
  congrArg String.mk h

theorem lowerStr_data (s : String) :
    (lowerStr s).data = s.data.map Char.toLower := rfl

theorem mem_of_isPrefixChars :
    ∀ {l1 l2 : List Char}, isPrefixChars l1 l2 = true → ∀ c ∈ l1, c ∈ l2 := by
  intro l1
  induction l1 with
  | nil => intro l2 _ c hc; exact absurd hc (List.not_mem_nil c)
  | cons a as ih =>
    intro l2 h c hc
    cases l2 with
    | nil => simp [isPrefixChars] at h
    | cons b bs =>
      simp only [isPrefixChars, Bool.and_eq_true, beq_iff_eq] at h
      rcases List.mem_cons.1 hc with rfl | hmem
      · exact h.1 ▸ List.mem_cons_self _ _
      · exact List.mem_cons_of_mem _ (ih h.2 c hmem)

theorem isPrefixChars_refl : ∀ l : List Char, isPrefixChars l l = true := by
  intro l
  induction l with
  | nil => rfl
  | cons a as ih => simp [isPrefixChars, ih]

theorem mem_of_strContainsAux :
    ∀ {h : List Char} {n : List Char}, strContainsAux n h = true → ∀ c ∈ n, c ∈ h := by
  intro h
  induction h with
  | nil =>
    intro n hcont c hc
    simp only [strContainsAux, List.isEmpty_iff] at hcont
    subst hcont; exact absurd hc (List.not_mem_nil c)
  | cons b bs ih =>
    intro n hcont c hc
    simp only [strContainsAux, Bool.or_eq_true] at hcont
    rcases hcont with hp | hr
    · exact mem_of_isPrefixChars hp c hc
    · exact List.mem_cons_of_mem _ (ih hr c hc)

theorem strContainsAux_append_self :
    ∀ (pre n : List Char), strContainsAux n (pre ++ n) = true := by
  intro pre
  induction pre with
  | nil =>
    intro n
    cases n with
    | nil => rfl
    | cons a as => simp [strContainsAux, isPrefixChars_refl]
  | cons b bs ih =>
    intro n
    simp [strContainsAux, ih n]

theorem containsStr_eq_false_of_not_mem (s sub : String) (c : Char)
    (hc : c ∈ sub.data) (h : c ∉ s.data) : containsStr s sub = false := by
  cases hcs : containsStr s sub with
  | false => rfl
  | true => exact absurd (mem_of_strContainsAux hcs c hc) h

theorem contains_lower_false (s sub : String) (c : Char) (hc : c ∈ sub.data)
    (h : ∀ x ∈ s.data, Char.toLower x ≠ c) :
    containsStr (lowerStr s) sub = false := by
  apply containsStr_eq_false_of_not_mem _ _ c hc
  rw [lowerStr_data]
  intro hmem
  obtain ⟨x, hx, hxl⟩ := List.mem_map.1 hmem
  exact h x hx hxl

theorem contains_down_suffix (s : String) :
    containsStr (lowerStr (s ++ "down")) "down" = true := by
  show strContainsAux "down".data (lowerStr (s ++ "down")).data = true
  rw [lowerStr_data, string_data_append, List.map_append]
  have hmap : "down".data.map Char.toLower = "down".data := by decide
  rw [hmap]
  exact strContainsAux_append_self _ _

/-! ### Decimal-rendering helper lemmas -/

theorem natCharsAux_digits :
    ∀ (fuel n : Nat), ∀ c ∈ natCharsAux fuel n, c ∈ "0123456789".data := by
  intro fuel
  induction fuel with
  | zero => intro n c hc; exact absurd hc (List.not_mem_nil c)
  | succ f ih =>
    intro n c hc
    by_cases h : n < 10
    · simp only [natCharsAux, if_pos h, List.mem_singleton] at hc
      subst hc
      exact (by decide : ∀ m, m < 10 → Nat.digitChar m ∈ "0123456789".data) n h
    · simp only [natCharsAux, if_neg h, List.mem_append, List.mem_singleton] at hc
      rcases hc with hc | hc
      · exact ih (n / 10) c hc
      · subst hc
        exact (by decide : ∀ m, m < 10 → Nat.digitChar m ∈ "0123456789".data)
          (n % 10) (Nat.mod_lt n (by omega))

theorem natStr_digits (n : Nat) : ∀ c ∈ (natStr n).data, c ∈ "0123456789".data :=
  natCharsAux_digits (n + 1) n

theorem ratStr_chars (q : ℚ) : ∀ c ∈ (ratStr q).data, c ∈ "0123456789-/".data := by
  intro c hc
  unfold ratStr at hc
  rw [string_data_append, string_data_append] at hc
  have hdig : ∀ x ∈ "0123456789".data, x ∈ "0123456789-/".data := by decide
  rcases List.mem_append.1 hc with hc1 | hc2
  · rcases List.mem_append.1 hc1 with hc3 | hc4
    · by_cases hq : q < 0
      · rw [if_pos hq] at hc3
        have e : "-".data = ['-'] := rfl
        rw [e, List.mem_singleton] at hc3
        subst hc3; decide
      · rw [if_neg hq] at hc3
        exact absurd hc3 (List.not_mem_nil c)
    · exact hdig c (natStr_digits _ c hc4)
  · by_cases hden : q.den = 1
    · rw [if_pos hden] at hc2
      exact absurd hc2 (List.not_mem_nil c)
    · rw [if_neg hden, string_data_append] at hc2
      rcases List.mem_append.1 hc2 with hc3 | hc4
      · have e : "/".data = ['/'] := rfl
        rw [e, List.mem_singleton] at hc3
        subst hc3; decide
      · exact hdig c (natStr_digits _ c hc4)

theorem charsVal_fold (fuel : Nat) :
    ∀ (n : Nat), n < fuel → ∀ (a : Nat),
      List.foldl (fun x c => x * 10 + (c.toNat - 48)) a (natCharsAux fuel n)
        = a * 10 ^ (natCharsAux fuel n).length + n := by
  induction fuel with
  | zero => intro n h; omega
  | succ f ih =>
    intro n h a
    by_cases h10 : n < 10
    · simp only [natCharsAux, if_pos h10, List.foldl_cons, List.foldl_nil,
        List.length_singleton, pow_one]
      have := (by decide : ∀ m, m < 10 → (Nat.digitChar m).toNat - 48 = m) n h10
      omega
    · have hdiv : n / 10 < f := by
        have h1 : n / 10 < n := Nat.div_lt_self (by omega) (by omega)
        omega
      simp only [natCharsAux, if_neg h10, List.foldl_append, List.foldl_cons,
        List.foldl_nil, List.length_append, List.length_singleton]
      rw [ih (n / 10) hdiv a]
      have hd := (by decide : ∀ m, m < 10 → (Nat.digitChar m).toNat - 48 = m)
        (n % 10) (Nat.mod_lt n (by omega))
      rw [hd, pow_succ]
      have hmod := Nat.div_add_mod n 10
      set L := (natCharsAux f (n / 10)).length
      calc (a * 10 ^ L + n / 10) * 10 + n % 10
          = a * (10 ^ L * 10) + (10 * (n / 10) + n % 10) := by ring
        _ = a * (10 ^ L * 10) + n := by rw [hmod]

theorem charsVal_natCharsAux (fuel n : Nat) (h : n < fuel) :
    charsVal (natCharsAux fuel n) = n := by
  unfold charsVal
  rw [charsVal_fold fuel n h 0]
  simp

theorem foldl_zero_replicate (k : Nat) :
    List.foldl (fun x c => x * 10 + (c.toNat - 48)) 0 (List.replicate k '0') = 0 := by
  induction k with
  | zero => rfl
  | succ m ih => simpa [List.replicate_succ] using ih

theorem charsVal_pad (k : Nat) (l : List Char) :
    charsVal (List.replicate k '0' ++ l) = charsVal l := by
  unfold charsVal
  rw [List.foldl_append, foldl_zero_replicate]

theorem pad4_inj {n m : Nat} (h : pad4 n = pad4 m) : n = m := by
  have hd := congrArg String.data h
  simp only [pad4] at hd
  have h1 : charsVal (List.replicate (4 - (natCharsAux (n + 1) n).length) '0' ++
      natCharsAux (n + 1) n) = charsVal (List.replicate
      (4 - (natCharsAux (m + 1) m).length) '0' ++ natCharsAux (m + 1) m) := by
    rw [hd]
  rw [charsVal_pad, charsVal_pad, charsVal_natCharsAux (n + 1) n (by omega),
    charsVal_natCharsAux (m + 1) m (by omega)] at h1
  exact h1

/-! ### Severity-classification lemmas -/

theorem sev_perf_generic (pre suf : String) (q : ℚ)
    (hpre : ∀ x ∈ pre.data, Char.toLower x ≠ 'b')
    (hsuf : ∀ x ∈ suf.data, Char.toLower x ≠ 'b') :
    determine_severity "performance" (pre ++ ratStr q ++ suf) = "MINOR" := by
  have h2 : containsStr (lowerStr (pre ++ ratStr q ++ suf)) "unreachable" = false := by
    apply contains_lower_false _ _ 'b' (by decide)
    intro x hx
    rw [string_data_append, string_data_append] at hx
    rcases List.mem_append.1 hx with hx1 | hx2
    · rcases List.mem_append.1 hx1 with hx3 | hx4
      · exact hpre x hx3
      · exact (by decide : ∀ y ∈ "0123456789-/".data, Char.toLower y ≠ 'b') x
          (ratStr_chars q x hx4)
    · exact hsuf x hx2
  have h1 : containsStr (lowerStr "performance") "connectivity" = false := by decide
  have h3 : containsStr (lowerStr "performance") "interface" = false := by decide
  simp [determine_severity, h1, h2, h3]

theorem sev_cpu (q : ℚ) :
    determine_severity "performance" ("High CPU usage: " ++ ratStr q ++ "%") = "MINOR" :=
  sev_perf_generic _ _ q (by decide) (by decide)

theorem sev_mem (q : ℚ) :
    determine_severity "performance" ("High memory usage: " ++ ratStr q ++ "%") = "MINOR" :=
  sev_perf_generic _ _ q (by decide) (by decide)

theorem sev_temp (q : ℚ) :
    determine_severity "performance" ("High temperature: " ++ ratStr q ++ "Â°C") = "MINOR" :=
  sev_perf_generic _ _ q (by decide) (by decide)

theorem count_issue_props (m k : Nat) :
    determine_severity "interface"
        ("Expected " ++ natStr m ++ " interfaces, found " ++ natStr k) = "MINOR"
    ∧ containsStr (lowerStr
        ("Expected " ++ natStr m ++ " interfaces, found " ++ natStr k)) "down" = false := by
  have hdig : ∀ y ∈ "0123456789".data, Char.toLower y ≠ 'b' ∧ Char.toLower y ≠ 'w' := by
    decide
  have hmem : ∀ x ∈ ("Expected " ++ natStr m ++ " interfaces, found " ++ natStr k).data,
      Char.toLower x ≠ 'b' ∧ Char.toLower x ≠ 'w' := by
    intro x hx
    rw [string_data_append, string_data_append, string_data_append] at hx
    rcases List.mem_append.1 hx with hx1 | hx4
    · rcases List.mem_append.1 hx1 with hx2 | hx3
      · rcases List.mem_append.1 hx2 with hxa | hxb
        · exact (by decide :
            ∀ y ∈ "Expected ".data, Char.toLower y ≠ 'b' ∧ Char.toLower y ≠ 'w') x hxa
        · exact hdig x (natStr_digits m x hxb)
      · exact (by decide :
          ∀ y ∈ " interfaces, found ".data,
            Char.toLower y ≠ 'b' ∧ Char.toLower y ≠ 'w') x hx3
    · exact hdig x (natStr_digits k x hx4)
  have hdown : containsStr (lowerStr
      ("Expected " ++ natStr m ++ " interfaces, found " ++ natStr k)) "down" = false :=
    contains_lower_false _ _ 'w' (by decide) (fun x hx => (hmem x hx).2)
  have hunr : containsStr (lowerStr
      ("Expected " ++ natStr m ++ " interfaces, found " ++ natStr k)) "unreachable" = false :=
    contains_lower_false _ _ 'b' (by decide) (fun x hx => (hmem x hx).1)
  have h1 : containsStr (lowerStr "interface") "connectivity" = false := by decide
  refine ⟨?_, hdown⟩
  simp [determine_severity, h1, hunr, hdown]

theorem sev_down_issue (nm : String)
    (hunr : containsStr (lowerStr
      ("Interface " ++ nm ++ " is " ++ "down")) "unreachable" = false) :
    determine_severity "interface" ("Interface " ++ nm ++ " is " ++ "down") = "MAJOR" := by
  have h1 : containsStr (lowerStr "interface") "connectivity" = false := by decide
  have h2 : containsStr (lowerStr "interface") "interface" = true := by decide
  have hdown : containsStr (lowerStr
      ("Interface " ++ nm ++ " is " ++ "down")) "down" = true :=
    contains_down_suffix ("Interface " ++ nm ++ " is ")
  simp [determine_severity, h1, hunr, h2, hdown]

/-! ### Defect-creation fold lemmas -/

theorem create_fold_defects (issues : List String) :
    ∀ (fw : Framework) (device_name category now : String),
      (issues.foldl
        (fun f issue => (create_defect f device_name category issue now).1) fw).defects.map dproj
        = fw.defects.map dproj
          ++ issues.map (fun issue =>
              (device_name, category, issue, determine_severity category issue)) := by
  induction issues with
  | nil => intro fw dn cat now; simp
  | cons i is ih =>
    intro fw dn cat now
    simp only [List.foldl_cons, List.map_cons]
    rw [ih]
    simp [create_defect, dproj]

theorem create_fold_results (issues : List String) :
    ∀ (fw : Framework) (device_name category now : String),
      (issues.foldl
        (fun f issue => (create_defect f device_name category issue now).1) fw).test_results
        = fw.test_results := by
  induction issues with
  | nil => intro fw dn cat now; rfl
  | cons i is ih =>
    intro fw dn cat now
    simp only [List.foldl_cons]
    rw [ih]
    rfl

theorem create_fold_configs (issues : List String) :
    ∀ (fw : Framework) (device_name category now : String),
      (issues.foldl
        (fun f issue => (create_defect f device_name category issue now).1) fw).device_configs
        = fw.device_configs := by
  induction issues with
  | nil => intro fw dn cat now; rfl
  | cons i is ih =>
    intro fw dn cat now
    simp only [List.foldl_cons]
    rw [ih]
    rfl

/-! ### Check-outcome characterization lemmas -/

theorem statusIssues_empty_lt (d : SystemStatus) :
    (statusIssues (.systemStatus d)).isEmpty = true ↔
      (¬(80 < d.cpu_usage) ∧ ¬(90 < d.memory_usage) ∧ ¬(60 < d.temperature)) := by
  by_cases h1 : (80:ℚ) < d.cpu_usage <;> by_cases h2 : (90:ℚ) < d.memory_usage <;>
    by_cases h3 : (60:ℚ) < d.temperature <;>
    simp [statusIssues, getCpu, getMemory, getTemperature, h1, h2, h3]

theorem statusIssues_empty_iff (d : SystemStatus) :
    (statusIssues (.systemStatus d)).isEmpty = true ↔
      (d.cpu_usage ≤ 80 ∧ d.memory_usage ≤ 90 ∧ d.temperature ≤ 60) := by
  rw [statusIssues_empty_lt]
  simp [not_lt]

theorem sev_status_issue (d : SystemStatus) :
    ∀ iss ∈ statusIssues (.systemStatus d),
      determine_severity "performance" iss = "MINOR" := by
  intro iss hmem
  simp only [statusIssues, getCpu, getMemory, getTemperature] at hmem
  rcases List.mem_append.1 hmem with h12 | h3
  · rcases List.mem_append.1 h12 with h1 | h2
    · by_cases hc : (80:ℚ) < d.cpu_usage
      · rw [if_pos hc, List.mem_singleton] at h1; subst h1; exact sev_cpu _
      · rw [if_neg hc] at h1; exact absurd h1 (List.not_mem_nil _)
    · by_cases hc : (90:ℚ) < d.memory_usage
      · rw [if_pos hc, List.mem_singleton] at h2; subst h2; exact sev_mem _
      · rw [if_neg hc] at h2; exact absurd h2 (List.not_mem_nil _)
  · by_cases hc : (60:ℚ) < d.temperature
    · rw [if_pos hc, List.mem_singleton] at h3; subst h3; exact sev_temp _
    · rw [if_neg hc] at h3; exact absurd h3 (List.not_mem_nil _)

theorem sev_interface_issue (expected : Nat) (ifaces : List NetInterface)
    (hshape : ∀ i ∈ ifaces, (i.status = "up" ∨ i.status = "down")
      ∧ containsStr (lowerStr
          ("Interface " ++ i.name ++ " is " ++ i.status)) "unreachable" = false) :
    ∀ iss ∈ interfaceIssues expected (.interfaces ifaces),
      determine_severity "interface" iss
        = (if containsStr (lowerStr iss) "down" then "MAJOR" else "MINOR") := by
  intro iss hmem
  simp only [interfaceIssues, getInterfaces] at hmem
  rcases List.mem_append.1 hmem with h1 | h2
  · by_cases hlen : ifaces.length ≠ expected
    · rw [if_pos hlen, List.mem_singleton] at h1
      subst h1
      rw [(count_issue_props expected ifaces.length).2]
      simpa using (count_issue_props expected ifaces.length).1
    · rw [if_neg hlen] at h1; exact absurd h1 (List.not_mem_nil _)
  · obtain ⟨i, hif, rfl⟩ := List.mem_map.1 h2
    have hmf := List.mem_filter.1 hif
    have hne : i.status ≠ "up" := by simpa using hmf.2
    have hsh := hshape i hmf.1
    have hdn : i.status = "down" := by
      rcases hsh.1 with h | h
      · exact absurd h hne
      · exact h
    rw [hdn] at hsh
    rw [hdn]
    rw [contains_down_suffix ("Interface " ++ i.name ++ " is ")]
    simpa using sev_down_issue i.name hsh.2

theorem runCreates_ids (reqs : List (String × String × String × String)) :
    ∀ fw : Framework,
      (runCreates fw reqs).defects.map (fun d => d.defect_id)
        = fw.defects.map (fun d => d.defect_id)
          ++ (List.range reqs.length).map
              (fun k => "DEF-" ++ pad4 (fw.defects.length + k + 1)) := by
  induction reqs with
  | nil => intro fw; simp [runCreates]
  | cons r rs ih =>
    intro fw
    have hstep : runCreates fw (r :: rs)
        = runCreates ((create_defect fw r.1 r.2.1 r.2.2.1 r.2.2.2).1) rs := rfl
    rw [hstep, ih]
    simp only [create_defect, List.map_append, List.map_cons, List.map_nil,
      List.length_append, List.length_cons, List.length_nil, List.append_assoc,
      List.cons_append, List.nil_append, List.length_singleton]
    rw [List.range_succ_eq_map, List.map_cons, List.map_map]
    have htail : List.map (fun k => "DEF-" ++ pad4 (fw.defects.length + (0 + 1) + k + 1))
          (List.range rs.length)
        = List.map ((fun k => "DEF-" ++ pad4 (fw.defects.length + k + 1)) ∘ Nat.succ)
          (List.range rs.length) := by
      apply List.map_congr_left
      intro x _
      simp only [Function.comp_apply]
      congr 2
      omega
    rw [htail]

/-- Claim C5: severity derivation is a pure function of (category, description)
evaluated by precedence: CRITICAL when the category contains "connectivity" or
the description mentions "unreachable"; otherwise MAJOR when the category
contains "interface" and the description mentions "down"; otherwise MINOR
(the source's extra high-CPU/memory rule also returns MINOR, so it refines the
three-rule specification exactly). -/
theorem severity_precedence (category description : String) :
    determine_severity category description = severitySpecRule category description := by
  unfold determine_severity severitySpecRule
  split_ifs <;> rfl

/-- Claim C9: generating the report does not modify the result or defect state
(the embedding of `generate_test_report` is a pure read of the framework
state, mirroring the method, which only reads `self`), and two generations
over the same state yield identical reports except for the generation
timestamp. -/
theorem report_generation_pure (fw : Framework) (t1 t2 : String) :
    (generate_test_report fw t1).test_summary = (generate_test_report fw t2).test_summary
    ∧ (generate_test_report fw t1).test_results = fw.test_results
    ∧ (generate_test_report fw t1).defects_found = fw.defects.length
    ∧ (generate_test_report fw t1).defect_details = fw.defects
    ∧ { generate_test_report fw t1 with report_generated := t2 }
        = generate_test_report fw t2 :=
  ⟨rfl, rfl, rfl, rfl, rfl⟩

/-- Claim C8: the report's pass rate is passed/total formatted as a percentage
with one decimal place, is "0%" when the total is zero, and is "66.7%" for
3 recorded results of which 2 passed. -/
theorem pass_rate_spec (fw : Framework) (now : String) :
    (generate_test_report fw now).test_summary.pass_rate
      = (if 0 < fw.test_results.length then
          fmt1 (((fw.test_results.filter (fun t => t.status == "PASSED")).length : ℚ)
            / (fw.test_results.length : ℚ) * 100) ++ "%"
        else "0%")
    ∧ (generate_test_report { test_results := [], defects := [], device_configs := [] } now).test_summary.pass_rate = "0%"
    ∧ (generate_test_report fw3 now).test_summary.pass_rate = "66.7%" := by
  refine ⟨rfl, rfl, ?_⟩
  show (if 0 < fw3.test_results.length then
      fmt1 (((fw3.test_results.filter (fun t => t.status == "PASSED")).length : ℚ)
        / (fw3.test_results.length : ℚ) * 100) ++ "%"
    else "0%") = "66.7%"
  rw [show (fw3.test_results.filter (fun t => t.status == "PASSED")).length = 2 from rfl,
    show fw3.test_results.length = 3 from rfl, if_pos (by norm_num)]
  have harg : ((2 : Nat) : ℚ) / ((3 : Nat) : ℚ) * 100 = 200 / 3 := by norm_num
  rw [harg]
  have hfl : (⌊(200 : ℚ) / 3 * 10 + 1 / 2⌋ : ℤ) = 667 := by
    rw [Int.floor_eq_iff]
    constructor <;> norm_num
  unfold fmt1
  rw [hfl]
  decide

/-- Claim C7: within one framework instance (which starts with an empty defect
list) the n-th created defect's identifier is "DEF-" followed by the 1-based
sequence number n zero-padded to 4 digits, so the identifiers listed in
creation order follow that formula and are pairwise distinct. -/
theorem defect_ids_sequential (fw : Framework)
    (reqs : List (String × String × String × String)) (h : fw.defects = []) :
    (runCreates fw reqs).defects.map (fun d => d.defect_id)
      = (List.range reqs.length).map (fun k => "DEF-" ++ pad4 (k + 1))
    ∧ ((runCreates fw reqs).defects.map (fun d => d.defect_id)).Nodup := by
  have hids := runCreates_ids reqs fw
  rw [h] at hids
  simp only [List.map_nil, List.length_nil, List.nil_append, Nat.zero_add] at hids
  have hinj : Function.Injective (fun k : Nat => "DEF-" ++ pad4 (k + 1)) := by
    intro a b hab
    have hd := congrArg String.data hab
    rw [string_data_append, string_data_append] at hd
    have hp : pad4 (a + 1) = pad4 (b + 1) :=
      string_eq_of_data (List.append_cancel_left hd)
    have := pad4_inj hp
    omega
  exact ⟨hids, hids ▸ List.Nodup.map hinj (List.nodup_range _)⟩

/-- Witness for claim C7: two creations on a fresh framework yield the
identifiers DEF-0001 and DEF-0002, pairwise distinct. -/
theorem defect_ids_sequential_witness :
    (runCreates initFramework c7reqs).defects.map (fun d => d.defect_id)
        = (List.range c7reqs.length).map (fun k => "DEF-" ++ pad4 (k + 1))
    ∧ ((runCreates initFramework c7reqs).defects.map (fun d => d.defect_id)).Nodup
    ∧ (runCreates initFramework c7reqs).defects.map (fun d => d.defect_id)
        = ["DEF-0001", "DEF-0002"] := by
  have h := defect_ids_sequential initFramework c7reqs rfl
  exact ⟨h.1, h.2, h.1.trans (by decide)⟩

/-- Claim C2: for a registered device the connectivity check passes exactly
when the simulated response time is positive and the port is open; otherwise
it fails with the single issue "Connectivity failed - device unreachable" and
exactly one connectivity defect of CRITICAL severity, and on success no defect
is created. -/
theorem connectivity_check_spec (fw : Framework) (device_name now : String)
    (cfg : DeviceConfig) (rt : ℚ) (po : Bool)
    (hdev : lookupDevice fw device_name = some cfg) :
    ((test_device_connectivity fw device_name rt po now).2.status = "PASSED"
      ↔ (0 < rt ∧ po = true))
    ∧ (0 < rt ∧ po = true →
        (test_device_connectivity fw device_name rt po now).1.defects = fw.defects
        ∧ (test_device_connectivity fw device_name rt po now).2.error = none)
    ∧ (¬(0 < rt ∧ po = true) →
        (test_device_connectivity fw device_name rt po now).2.status = "FAILED"
        ∧ (test_device_connectivity fw device_name rt po now).2.error
            = some "Connectivity failed - device unreachable"
        ∧ (test_device_connectivity fw device_name rt po now).1.defects.map dproj
            = fw.defects.map dproj
              ++ [(device_name, "connectivity",
                  "Connectivity failed - device unreachable", "CRITICAL")]) := by
  have hsev : determine_severity "connectivity"
      "Connectivity failed - device unreachable" = "CRITICAL" := by decide
  by_cases hc : 0 < rt ∧ po = true
  · simp [test_device_connectivity, hdev, hc]
  · simp [test_device_connectivity, hdev, hc, create_defect, dproj, hsev]

/-- Witness for claim C2: a registered device with response time 0 fails the
connectivity check with the unreachable issue and one CRITICAL connectivity
defect. -/
theorem connectivity_check_spec_witness :
    (test_device_connectivity initFramework "optical_device_1" 0 true "t").2.status = "FAILED"
    ∧ (test_device_connectivity initFramework "optical_device_1" 0 true "t").2.error
        = some "Connectivity failed - device unreachable"
    ∧ (test_device_connectivity initFramework "optical_device_1" 0 true "t").1.defects.map dproj
        = initFramework.defects.map dproj
          ++ [("optical_device_1", "connectivity",
              "Connectivity failed - device unreachable", "CRITICAL")] :=
  (connectivity_check_spec initFramework "optical_device_1" "t" opticalCfg 0 true
    rfl).2.2 (fun hcon => absurd hcon.1 (lt_irrefl 0))

/-- Claim C10: for a device name absent from the registry the status check
records an outcome with status FAILED (not ERROR) whose single issue is
"Device not found", and creates exactly one performance defect of MINOR
severity for it. -/
theorem absent_device_status_check (fw : Framework) (device_name now : String)
    (hdev : lookupDevice fw device_name = none) :
    (test_device_status fw device_name now).2.status = "FAILED"
    ∧ (test_device_status fw device_name now).2.issues = ["Device not found"]
    ∧ (test_device_status fw device_name now).1.defects.map dproj
        = fw.defects.map dproj
          ++ [(device_name, "performance", "Device not found", "MINOR")] := by
  have hsev : determine_severity "performance" "Device not found" = "MINOR" := by decide
  simp [test_device_status, test_device_status_with, simulate_rest_call, hdev,
    statusIssues, create_defect, dproj, hsev]

/-- Witness for claim C10: the status check on the unknown device "ghost". -/
theorem absent_device_status_check_witness :
    (test_device_status initFramework "ghost" "t").2.status = "FAILED"
    ∧ (test_device_status initFramework "ghost" "t").2.issues = ["Device not found"]
    ∧ (test_device_status initFramework "ghost" "t").1.defects.map dproj
        = initFramework.defects.map dproj
          ++ [("ghost", "performance", "Device not found", "MINOR")] :=
  absent_device_status_check initFramework "ghost" "t" rfl

/-- Claim C6: a check whose outcome is not FAILED leaves the defect list
unchanged, for each of the four checks (so every defect corresponds to a
FAILED outcome; the simulated adapter cannot raise, so ERROR outcomes do not
occur in the embedding and a fortiori never create defects; the alarm check
never creates defects at all). -/
theorem defects_only_from_failed (fw : Framework) (device_name now : String)
    (rt : ℚ) (po : Bool) (sd ifd : RestResponse) :
    ((test_device_connectivity fw device_name rt po now).2.status ≠ "FAILED" →
      (test_device_connectivity fw device_name rt po now).1.defects = fw.defects)
    ∧ ((test_device_status_with fw device_name now sd).2.status ≠ "FAILED" →
      (test_device_status_with fw device_name now sd).1.defects = fw.defects)
    ∧ ((test_interface_status_with fw device_name now ifd).2.status ≠ "FAILED" →
      (test_interface_status_with fw device_name now ifd).1.defects = fw.defects)
    ∧ (test_alarm_monitoring fw device_name now).1.defects = fw.defects := by
  refine ⟨?_, ?_, ?_, rfl⟩
  · rcases hdev : lookupDevice fw device_name with _ | cfg
    · intro _
      simp [test_device_connectivity, hdev]
    · by_cases hc : 0 < rt ∧ po = true
      · intro _
        simp [test_device_connectivity, hdev, hc]
      · intro hst
        exfalso
        apply hst
        simp [test_device_connectivity, hdev, hc]
  · by_cases he : (statusIssues sd).isEmpty
    · intro _
      simp [test_device_status_with, he]
    · intro hst
      exfalso
      apply hst
      simp [test_device_status_with, he]
  · by_cases he : (interfaceIssues
        (((lookupDevice fw device_name).map (fun c => c.expected_interfaces)).getD 0)
        ifd).isEmpty
    · intro _
      simp [test_interface_status_with, he]
    · intro hst
      exfalso
      apply hst
      simp [test_interface_status_with, he]

/-- Witness for claim C6: a passing connectivity check leaves the defect list
unchanged. -/
theorem defects_only_from_failed_witness :
    (test_device_connectivity initFramework "optical_device_1" 1 true "t").1.defects
      = initFramework.defects :=
  (defects_only_from_failed initFramework "optical_device_1" "t" 1 true
    (.error "x") (.error "x")).1 (by decide)

/-- Claim C3: the status check passes exactly when all three metrics are at or
below their thresholds (CPU 80.0, memory 90.0, temperature 60.0); each metric
strictly above its threshold contributes exactly one issue naming the metric
and its value; any breach makes the outcome FAILED; and one performance defect
of MINOR severity is created per issue (none when the check passes). -/
theorem status_check_spec (fw : Framework) (device_name now : String) (d : SystemStatus) :
    ((test_device_status_with fw device_name now (.systemStatus d)).2.status
        = if d.cpu_usage ≤ 80 ∧ d.memory_usage ≤ 90 ∧ d.temperature ≤ 60
          then "PASSED" else "FAILED")
    ∧ (test_device_status_with fw device_name now (.systemStatus d)).2.issues
        = (if 80 < d.cpu_usage then
            ["High CPU usage: " ++ ratStr d.cpu_usage ++ "%"] else [])
          ++ (if 90 < d.memory_usage then
            ["High memory usage: " ++ ratStr d.memory_usage ++ "%"] else [])
          ++ (if 60 < d.temperature then
            ["High temperature: " ++ ratStr d.temperature ++ "Â°C"] else [])
    ∧ (test_device_status_with fw device_name now (.systemStatus d)).1.defects.map dproj
        = fw.defects.map dproj
          ++ ((test_device_status_with fw device_name now (.systemStatus d)).2.issues).map
              (fun issue => (device_name, "performance", issue, "MINOR")) := by
  refine ⟨?_, ?_, ?_⟩
  · by_cases he : (statusIssues (RestResponse.systemStatus d)).isEmpty
    · rw [if_pos ((statusIssues_empty_iff d).1 he)]
      simp [test_device_status_with, he]
    · rw [if_neg (fun hc => he ((statusIssues_empty_iff d).2 hc))]
      simp [test_device_status_with, he]
  · show statusIssues (RestResponse.systemStatus d) = _
    simp [statusIssues, getCpu, getMemory, getTemperature]
  · by_cases he : (statusIssues (RestResponse.systemStatus d)).isEmpty
    · have hnil : statusIssues (RestResponse.systemStatus d) = [] :=
        List.isEmpty_iff.1 he
      simp [test_device_status_with, he, hnil]
    · have hmap := create_fold_defects (statusIssues (RestResponse.systemStatus d))
        fw device_name "performance" now
      simp only [test_device_status_with, if_neg he]
      rw [hmap]
      congr 1
      apply List.map_congr_left
      intro iss hiss
      rw [sev_status_issue d iss hiss]

/-- Claim C4: for a registered device, the interface check passes with zero
defects exactly when the returned list has exactly the expected number of
interfaces and every status is "up"; otherwise it fails with one issue per
deviation (a count-mismatch issue and one issue per non-up interface naming
it), creating one interface defect per issue whose severity is MAJOR when the
issue text mentions "down" and MINOR otherwise.  The hypotheses on the list
hold for every list the simulated adapter returns (statuses are only "up" or
"down" and the eth names cannot spell "unreachable"). -/
theorem interface_check_spec (fw : Framework) (device_name now : String)
    (cfg : DeviceConfig) (ifaces : List NetInterface)
    (hdev : lookupDevice fw device_name = some cfg)
    (hshape : ∀ i ∈ ifaces, (i.status = "up" ∨ i.status = "down")
      ∧ containsStr (lowerStr
          ("Interface " ++ i.name ++ " is " ++ i.status)) "unreachable" = false) :
    ((test_interface_status_with fw device_name now (.interfaces ifaces)).2.status = "PASSED"
        ∧ (test_interface_status_with fw device_name now (.interfaces ifaces)).1.defects
            = fw.defects
      ↔ ifaces.length = cfg.expected_interfaces ∧ ∀ i ∈ ifaces, i.status = "up")
    ∧ (test_interface_status_with fw device_name now (.interfaces ifaces)).2.issues
        = (if ifaces.length ≠ cfg.expected_interfaces then
            ["Expected " ++ natStr cfg.expected_interfaces ++ " interfaces, found "
              ++ natStr ifaces.length] else [])
          ++ (ifaces.filter (fun i => i.status != "up")).map
              (fun i => "Interface " ++ i.name ++ " is " ++ i.status)
    ∧ ((test_interface_status_with fw device_name now (.interfaces ifaces)).2.status = "PASSED"
        ∨ (test_interface_status_with fw device_name now (.interfaces ifaces)).2.status = "FAILED")
    ∧ (test_interface_status_with fw device_name now (.interfaces ifaces)).1.defects.map dproj
        = fw.defects.map dproj
          ++ ((test_interface_status_with fw device_name now (.interfaces ifaces)).2.issues).map
              (fun issue => (device_name, "interface", issue,
                if containsStr (lowerStr issue) "down" then "MAJOR" else "MINOR")) := by
  have hexp : ((lookupDevice fw device_name).map (fun c => c.expected_interfaces)).getD 0
      = cfg.expected_interfaces := by rw [hdev]; rfl
  have hiff : interfaceIssues cfg.expected_interfaces (.interfaces ifaces) = []
      ↔ (ifaces.length = cfg.expected_interfaces ∧ ∀ i ∈ ifaces, i.status = "up") := by
    by_cases hlen : ifaces.length = cfg.expected_interfaces
    · simp [interfaceIssues, getInterfaces, hlen, List.map_eq_nil_iff,
        List.filter_eq_nil_iff, bne_iff_ne]
    · simp [interfaceIssues, getInterfaces, hlen]
  refine ⟨?_, ?_, ?_, ?_⟩
  · constructor
    · rintro ⟨hst, -⟩
      by_cases he : (interfaceIssues cfg.expected_interfaces (.interfaces ifaces)).isEmpty
      · exact hiff.1 (List.isEmpty_iff.1 he)
      · exfalso
        simp [test_interface_status_with, hexp, he] at hst
    · intro hrhs
      have hE : interfaceIssues cfg.expected_interfaces (.interfaces ifaces) = [] :=
        hiff.2 hrhs
      have he : (interfaceIssues cfg.expected_interfaces (.interfaces ifaces)).isEmpty :=
        List.isEmpty_iff.2 hE
      exact ⟨by simp [test_interface_status_with, hexp, he],
        by simp [test_interface_status_with, hexp, he]⟩
  · have hpr : (test_interface_status_with fw device_name now (.interfaces ifaces)).2.issues
        = interfaceIssues cfg.expected_interfaces (.interfaces ifaces) := by
      simp [test_interface_status_with, hexp]
    rw [hpr]
    simp [interfaceIssues, getInterfaces]
  · by_cases he : (interfaceIssues cfg.expected_interfaces (.interfaces ifaces)).isEmpty
    · left
      simp [test_interface_status_with, hexp, he]
    · right
      simp [test_interface_status_with, hexp, he]
  · by_cases he : (interfaceIssues cfg.expected_interfaces (.interfaces ifaces)).isEmpty
    · have hE : interfaceIssues cfg.expected_interfaces (.interfaces ifaces) = [] :=
        List.isEmpty_iff.1 he
      simp [test_interface_status_with, hexp, he, hE]
    · have hmap := create_fold_defects
        (interfaceIssues cfg.expected_interfaces (.interfaces ifaces))
        fw device_name "interface" now
      simp only [test_interface_status_with, hexp, if_neg he]
      rw [hmap]
      congr 1
      apply List.map_congr_left
      intro iss hiss
      rw [sev_interface_issue cfg.expected_interfaces ifaces hshape iss hiss]

/-- Witness for claim C4: a device expecting 4 interfaces whose adapter
returns 4 interfaces with the last one down fails the interface check with
the single issue "Interface eth3 is down" and one MAJOR interface defect. -/
theorem interface_check_spec_witness :
    (test_interface_status_with initFramework "optical_device_1" "t"
        (.interfaces ifaceList4)).2.issues = ["Interface eth3 is down"]
    ∧ (test_interface_status_with initFramework "optical_device_1" "t"
        (.interfaces ifaceList4)).1.defects.map dproj
      = [("optical_device_1", "interface", "Interface eth3 is down", "MAJOR")] := by
  have h := interface_check_spec initFramework "optical_device_1" "t" opticalCfg
    ifaceList4 rfl (by decide)
  exact ⟨h.2.1.trans (by decide), (h.2.2.2.trans (by decide))⟩

/-- Claim C1 (amended): for a device name absent from the registry the suite
does NOT stop after one synthetic ERROR outcome.  The connectivity check
records a FAILED (not ERROR) outcome with error description
"Device configuration not found" and creates no defect, and the remaining
three checks still run: the status and interface checks each record a FAILED
outcome with the single issue "Device not found" and create one defect each
(performance/MINOR and interface/MINOR), and the alarm check records PASSED â
four outcomes and two defects in total for that device. -/
theorem absent_device_run_suite (fw : Framework) (device_name now : String)
    (ping : String → ℚ) (port : String → Bool)
    (hdev : lookupDevice fw device_name = none) :
    (run_test_suite fw (some [device_name]) ping port now).test_results.map
        (fun r => (r.test_name, r.status, r.error, r.issues))
      = fw.test_results.map (fun r => (r.test_name, r.status, r.error, r.issues))
        ++ [("connectivity_test_" ++ device_name, "FAILED",
              some "Device configuration not found", []),
            ("status_test_" ++ device_name, "FAILED", none, ["Device not found"]),
            ("interface_test_" ++ device_name, "FAILED", none, ["Device not found"]),
            ("alarm_test_" ++ device_name, "PASSED", none, [])]
    ∧ (run_test_suite fw (some [device_name]) ping port now).defects.map dproj
      = fw.defects.map dproj
        ++ [(device_name, "performance", "Device not found", "MINOR"),
            (device_name, "interface", "Device not found", "MINOR")] := by
  have hdev2 : fw.device_configs.lookup device_name = none := hdev
  have hsev1 : determine_severity "performance" "Device not found" = "MINOR" := by decide
  have hsev2 : determine_severity "interface" "Device not found" = "MINOR" := by decide
  constructor
  · simp [run_test_suite, test_device_connectivity, test_device_status,
      test_device_status_with, test_interface_status, test_interface_status_with,
      test_alarm_monitoring, simulate_rest_call, statusIssues, interfaceIssues,
      getAlarms, lookupDevice, hdev2, create_defect]
  · simp [run_test_suite, test_device_connectivity, test_device_status,
      test_device_status_with, test_interface_status, test_interface_status_with,
      test_alarm_monitoring, simulate_rest_call, statusIssues, interfaceIssues,
      getAlarms, lookupDevice, hdev2, create_defect, dproj, hsev1, hsev2]

/-- Witness for claim C1 (amended): running the suite for the unknown device
"ghost" on a fresh framework. -/
theorem absent_device_run_suite_witness :
    (run_test_suite initFramework (some ["ghost"]) (fun _ => 1) (fun _ => true)
        "t").test_results.map (fun r => (r.test_name, r.status, r.error, r.issues))
      = initFramework.test_results.map (fun r => (r.test_name, r.status, r.error, r.issues))
        ++ [("connectivity_test_" ++ "ghost", "FAILED",
              some "Device configuration not found", []),
            ("status_test_" ++ "ghost", "FAILED", none, ["Device not found"]),
            ("interface_test_" ++ "ghost", "FAILED", none, ["Device not found"]),
            ("alarm_test_" ++ "ghost", "PASSED", none, [])]
    ∧ (run_test_suite initFramework (some ["ghost"]) (fun _ => 1) (fun _ => true)
        "t").defects.map dproj
      = initFramework.defects.map dproj
        ++ [("ghost", "performance", "Device not found", "MINOR"),
            ("ghost", "interface", "Device not found", "MINOR")] :=
  absent_device_run_suite initFramework "ghost" "t" (fun _ => 1) (fun _ => true) rfl

/-- Counterexample to claim C1 as stated: running the suite for the unknown
device "ghost" on a fresh framework records four outcomes (the first FAILED
with "Device configuration not found", then two more FAILED and one PASSED)
and creates two defects — not a single ERROR outcome with zero defects and no
further checks. -/
theorem absent_device_claim_counterexample :
    (run_test_suite initFramework (some ["ghost"]) (fun _ => 1) (fun _ => true)
        "t").test_results.map (fun r => (r.status, r.error))
      = [("FAILED", some "Device configuration not found"), ("FAILED", none),
         ("FAILED", none), ("PASSED", none)]
    ∧ (run_test_suite initFramework (some ["ghost"]) (fun _ => 1) (fun _ => true)
        "t").defects.length = 2
    ∧ ¬((run_test_suite initFramework (some ["ghost"]) (fun _ => 1) (fun _ => true)
          "t").test_results.length = 1
        ∧ (run_test_suite initFramework (some ["ghost"]) (fun _ => 1) (fun _ => true)
            "t").defects.length = 0
        ∧ ∀ r ∈ (run_test_suite initFramework (some ["ghost"]) (fun _ => 1)
            (fun _ => true) "t").test_results, r.status = "ERROR") := by
  decide

end NetTest
